import Mathlib

/-!
Shallow embedding of the beam analysis engine in `src/utils/beamCalculations.ts`,
over exact rationals (JS numbers are idealized as ℚ; the 180/π degree-conversion
constant, being irrational, is kept as an explicit parameter `degPerRad`).
JS `x || d` on an optional numeric field treats 0 as absent; this is embedded
by `jsOr`.  JS `x !== undefined ? x : d` is `Option.getD`.
-/

/-- `Load` from `src/types/beam.ts`. -/
structure Load where
  id : String
  type : String
  magnitude : ℚ
  position : Option ℚ := none
  startPosition : Option ℚ := none
  endPosition : Option ℚ := none
  deriving DecidableEq

/-- `BeamParameters` from `src/types/beam.ts`. -/
structure BeamParameters where
  length : ℚ
  elasticModulus : ℚ
  momentOfInertia : ℚ
  beamType : String
  loads : List Load
  leftSupportPosition : Option ℚ := none
  rightSupportPosition : Option ℚ := none
  deriving DecidableEq

/-- Return shape of `calculateReactions`: `{ R1, R2, M1?, M2? }`. -/
structure Reactions where
  R1 : ℚ
  R2 : ℚ
  M1 : Option ℚ := none
  M2 : Option ℚ := none
  deriving DecidableEq

/-- A `{x, y}` sample point. -/
structure ResultPoint where
  x : ℚ
  y : ℚ
  deriving DecidableEq

/-- `DeflectionValues` from `src/types/beam.ts`. -/
structure DeflectionValues where
  leftEnd : ℚ
  rightEnd : ℚ
  midspan : ℚ
  maxValue : ℚ
  maxPosition : ℚ
  deriving DecidableEq

/-- `SlopeValues` from `src/types/beam.ts`. -/
structure SlopeValues where
  leftEnd : ℚ
  rightEnd : ℚ
  midspan : ℚ
  maxValue : ℚ
  maxPosition : ℚ
  deriving DecidableEq

/-- `CalculationResults` from `src/types/beam.ts`, minus the `steps` field
(string narration assembled by `generateCalculationSteps`, presentation only,
not touched by any claim). -/
structure CalculationResults where
  deflection : DeflectionValues
  slope : SlopeValues
  deflectionPoints : List ResultPoint
  slopePoints : List ResultPoint

/-- JS `v || d` for an optional numeric field: undefined and 0 both fall back. -/
def jsOr (v : Option ℚ) (d : ℚ) : ℚ :=
  match v with
  | none => d
  | some x => if x = 0 then d else x

/-- `convertToCalculationUnits`: kN → N, MPa → Pa, mm⁴ → m⁴. -/
def convertToCalculationUnits (params : BeamParameters) : BeamParameters :=
  { params with
    elasticModulus := params.elasticModulus * 1000000,
    momentOfInertia := params.momentOfInertia * (1 / 10 ^ 12),
    loads := params.loads.map fun load => { load with magnitude := load.magnitude * 1000 } }

/-- Simply-supported branch of `calculateReactions` (source lines 27-89).
`l` is the already unit-normalized load. -/
def ssReactions (length leftSupport rightSupport span : ℚ) (l : Load) : Reactions :=
  if l.type = "point-load" then
    match l.position with
    | some pos =>
      let relativePos := pos - leftSupport
      if pos < leftSupport ∨ pos > rightSupport then { R1 := 0, R2 := 0 }
      else
        let R2 := l.magnitude * relativePos / span
        { R1 := l.magnitude - R2, R2 := R2 }
    | none => { R1 := 0, R2 := 0 }
  else if l.type = "uniform-load" then
    let startPos := jsOr l.startPosition 0
    let endPos := jsOr l.endPosition length
    let overlapStart := max startPos leftSupport
    let overlapEnd := min endPos rightSupport
    if overlapStart ≥ overlapEnd then { R1 := 0, R2 := 0 }
    else
      let loadLength := overlapEnd - overlapStart
      let totalLoad := l.magnitude * loadLength
      let loadCenter := (overlapStart + overlapEnd) / 2 - leftSupport
      let R2 := totalLoad * loadCenter / span
      { R1 := totalLoad - R2, R2 := R2 }
  else if l.type = "triangular-load" then
    let startPos := jsOr l.startPosition 0
    let endPos := jsOr l.endPosition length
    let overlapStart := max startPos leftSupport
    let overlapEnd := min endPos rightSupport
    if overlapStart ≥ overlapEnd then { R1 := 0, R2 := 0 }
    else
      let loadWidth := endPos - startPos
      let totalLoad := l.magnitude * loadWidth / 2
      let loadCenter := endPos - loadWidth / 3
      let adjustedCenter := loadCenter - leftSupport
      let R2 := totalLoad * adjustedCenter / span
      { R1 := totalLoad - R2, R2 := R2 }
  else { R1 := 0, R2 := 0 }

/-- Cantilever branch of `calculateReactions` (source lines 90-120). -/
def cantileverReactions (length leftSupport : ℚ) (l : Load) : Reactions :=
  if l.type = "point-load" then
    match l.position with
    | some pos => { R1 := l.magnitude, R2 := 0, M1 := some (l.magnitude * pos) }
    | none => { R1 := 0, R2 := 0 }
  else if l.type = "uniform-load" then
    let startPos := jsOr l.startPosition 0
    let endPos := jsOr l.endPosition length
    let loadLength := endPos - startPos
    let totalLoad := l.magnitude * loadLength
    let loadCenter := (startPos + endPos) / 2
    { R1 := totalLoad, R2 := 0, M1 := some (totalLoad * loadCenter) }
  else if l.type = "triangular-load" then
    let startPos := jsOr l.startPosition 0
    let endPos := jsOr l.endPosition length
    let loadWidth := endPos - startPos
    let totalLoad := l.magnitude * loadWidth / 2
    let loadCenter := endPos - loadWidth / 3
    let lever := loadCenter - leftSupport
    { R1 := totalLoad, R2 := 0, M1 := some (totalLoad * lever) }
  else { R1 := 0, R2 := 0 }

/-- Fixed-fixed branch of `calculateReactions` (source lines 121-191). -/
def fixedReactions (length leftSupport span : ℚ) (l : Load) : Reactions :=
  if l.type = "point-load" then
    match l.position with
    | some a =>
      let L := length
      { R1 := l.magnitude * (1 - a / L),
        R2 := l.magnitude * (a / L),
        M1 := some (-l.magnitude * a * (L - a) * (L - a) / (L * L)),
        M2 := some (l.magnitude * a * a * (L - a) / (L * L)) }
    | none => { R1 := 0, R2 := 0 }
  else if l.type = "uniform-load" then
    let startPos := jsOr l.startPosition 0
    let endPos := jsOr l.endPosition length
    if endPos - startPos ≥ length then
      let w := l.magnitude
      let L := length
      { R1 := w * L / 2, R2 := w * L / 2,
        M1 := some (-w * L * L / 12), M2 := some (w * L * L / 12) }
    else
      let loadLength := endPos - startPos
      let w := l.magnitude
      let totalLoad := w * loadLength
      let loadCenter := (startPos + endPos) / 2
      let L := length
      let a := loadCenter
      let b := loadLength / 2
      { R1 := totalLoad * (1 - loadCenter / L),
        R2 := totalLoad * (loadCenter / L),
        M1 := some (-w * b * (L - a) * (L - a) * (L + 2 * a) / (12 * L)),
        M2 := some (w * b * a * a * (3 * L - 2 * a) / (12 * L)) }
  else if l.type = "triangular-load" then
    let startPos := jsOr l.startPosition 0
    let endPos := jsOr l.endPosition length
    let loadWidth := endPos - startPos
    let totalLoad := l.magnitude * loadWidth / 2
    let loadCenter := endPos - loadWidth / 3
    let adjustedCenter := loadCenter - leftSupport
    let a := adjustedCenter
    let L := span
    { R1 := totalLoad * (1 - adjustedCenter / span),
      R2 := totalLoad * (adjustedCenter / span),
      M1 := some (-totalLoad * a * (L - a) * (L - a) / (L * L)),
      M2 := some (totalLoad * a * a * (L - a) / (L * L)) }
  else { R1 := 0, R2 := 0 }

/-- `calculateReactions` (source lines 17-195).  The source takes a load index
into `params.loads`; here the load itself is passed (the callers iterate the
list), and the unit normalization of that one load is applied directly, which
is what `convertToCalculationUnits` does to it.  Support positions are read
from the raw `params` exactly as in the source. -/
def calculateReactions (params : BeamParameters) (load : Load) : Reactions :=
  let length := params.length
  let l : Load := { load with magnitude := load.magnitude * 1000 }
  let leftSupport := params.leftSupportPosition.getD 0
  let rightSupport := params.rightSupportPosition.getD length
  let span := rightSupport - leftSupport
  if params.beamType = "simply-supported" then ssReactions length leftSupport rightSupport span l
  else if params.beamType = "cantilever" then cantileverReactions length leftSupport l
  else if params.beamType = "fixed" then fixedReactions length leftSupport span l
  else { R1 := 0, R2 := 0 }

/-- `calculateTotalReactions` (source lines 197-209): componentwise sum over
loads, with `M1`/`M2` accumulated from 0 via `(… || 0)`. -/
def calculateTotalReactions (params : BeamParameters) : Reactions :=
  params.loads.foldl
    (fun acc load =>
      let r := calculateReactions params load
      { R1 := acc.R1 + r.R1, R2 := acc.R2 + r.R2,
        M1 := some (acc.M1.getD 0 + r.M1.getD 0),
        M2 := some (acc.M2.getD 0 + r.M2.getD 0) })
    { R1 := 0, R2 := 0, M1 := some 0, M2 := some 0 }

/-- Per-load simply-supported deflection contribution (source lines 561-625).
`l` is unit-normalized; `length` is the normalized beam length. -/
def ssDeflectionTerm (EI length position : ℚ) (l : Load) : ℚ :=
  if l.type = "point-load" then
    match l.position with
    | some a =>
      let L := length
      if position ≤ a then
        l.magnitude * a * position * (L * L - a * a - position * position) / (6 * EI * L)
      else
        l.magnitude * position * (L - position) * (L + position - 2 * a) / (6 * EI * L)
    | none => 0
  else if l.type = "uniform-load" then
    let startPos := jsOr l.startPosition 0
    let endPos := jsOr l.endPosition length
    let w := l.magnitude
    let L := length
    if endPos - startPos ≥ length then
      w * position * (L * L * L - 2 * L * position * position + position * position * position) /
        (24 * EI * L)
    else
      let loadLength := endPos - startPos
      let loadCenter := startPos + loadLength / 2
      let equivalentPointLoad := w * loadLength
      if position ≤ loadCenter then
        equivalentPointLoad * loadCenter * position *
          (L * L - loadCenter * loadCenter - position * position) / (6 * EI * L)
      else
        equivalentPointLoad * position * (L - position) * (L + position - 2 * loadCenter) /
          (6 * EI * L)
  else if l.type = "triangular-load" then
    let startPos := jsOr l.startPosition 0
    let endPos := jsOr l.endPosition length
    let w := l.magnitude
    let a := startPos
    let b := endPos
    let loadWidth := b - a
    let L := length
    if position ≤ a then
      let totalLoad := w * loadWidth / 2
      let loadCenter := b - loadWidth / 3
      totalLoad * position * (L * L - position * position - loadCenter * loadCenter) /
        (6 * EI * L)
    else if position ≤ b then
      let x1 := position - a
      w * position * (L - position) * (L + position) * loadWidth / (60 * EI * L) -
        w * x1 * x1 * x1 * (10 * L - 15 * position + 6 * x1) / (120 * EI * L * loadWidth)
    else
      let totalLoad := w * loadWidth / 2
      let loadCenter := b - loadWidth / 3
      totalLoad * position * (L - position) * (L + position - 2 * loadCenter) / (6 * EI * L)
  else 0

/-- Per-load cantilever deflection contribution (source lines 627-683). -/
def cantileverDeflectionTerm (EI length position : ℚ) (l : Load) : ℚ :=
  if l.type = "point-load" then
    match l.position with
    | some a =>
      if position ≤ a then
        l.magnitude * position * position * (3 * a - position) / (6 * EI)
      else
        l.magnitude * a * a * (3 * position - a) / (6 * EI)
    | none => 0
  else if l.type = "uniform-load" then
    let startPos := jsOr l.startPosition 0
    let endPos := jsOr l.endPosition length
    let w := l.magnitude
    if endPos - startPos ≥ length then
      w * position * position *
        (6 * length * length - 4 * length * position + position * position) / (24 * EI)
    else
      let loadLength := endPos - startPos
      let loadCenter := startPos + loadLength / 2
      let equivalentPointLoad := w * loadLength
      if position ≤ loadCenter then
        equivalentPointLoad * position * position * (3 * loadCenter - position) / (6 * EI)
      else
        equivalentPointLoad * loadCenter * loadCenter * (3 * position - loadCenter) / (6 * EI)
  else if l.type = "triangular-load" then
    let startPos := jsOr l.startPosition 0
    let endPos := jsOr l.endPosition length
    let w := l.magnitude
    let a := startPos
    let b := endPos
    let loadWidth := b - a
    if position ≤ a then
      let totalLoad := w * loadWidth / 2
      let loadCenter := b - loadWidth / 3
      totalLoad * position * position * (3 * loadCenter - position) / (6 * EI)
    else if position ≤ b then
      let x1 := position - a
      w * position * position * position * loadWidth / (24 * EI) -
        w * x1 * x1 * x1 * (4 * position - x1) / (24 * EI * loadWidth)
    else 0
  else 0

/-- Per-load fixed-fixed deflection contribution (source lines 685-745). -/
def fixedDeflectionTerm (EI length position : ℚ) (l : Load) : ℚ :=
  if l.type = "point-load" then
    match l.position with
    | some a =>
      let L := length
      let base := l.magnitude * position * position * (3 * L - position) * a / (6 * EI * L)
      if position > a then
        base - l.magnitude * (position - a) * (position - a) * (position - a) / (6 * EI)
      else base
    | none => 0
  else if l.type = "uniform-load" then
    let startPos := jsOr l.startPosition 0
    let endPos := jsOr l.endPosition length
    let w := l.magnitude
    let L := length
    if endPos - startPos ≥ length then
      w * position * position * (L - position) * (L - position) / (24 * EI)
    else
      let loadLength := endPos - startPos
      let equivalentPointLoad := w * loadLength
      let loadCenter := startPos + loadLength / 2
      let base := equivalentPointLoad * position * position * (3 * L - position) * loadCenter /
        (6 * EI * L)
      if position > loadCenter then
        base - equivalentPointLoad * (position - loadCenter) * (position - loadCenter) *
          (position - loadCenter) / (6 * EI)
      else base
  else if l.type = "triangular-load" then
    let startPos := jsOr l.startPosition 0
    let endPos := jsOr l.endPosition length
    let w := l.magnitude
    let a := startPos
    let b := endPos
    let loadWidth := b - a
    let L := length
    if position ≤ a then
      let totalLoad := w * loadWidth / 2
      let loadCenter := b - loadWidth / 3
      totalLoad * position * position * (3 * L - position) * loadCenter / (6 * EI * L * L)
    else if position ≤ b then
      let x1 := position - a
      w * position * position * (L - position) * (L - position) * loadWidth /
          (120 * EI * L * L) -
        w * x1 * x1 * x1 * position * (L - position) / (60 * EI * L * L * loadWidth)
    else
      let totalLoad := w * loadWidth / 2
      let loadCenter := b - loadWidth / 3
      totalLoad * position * position * (L - position) * (L - position) * loadCenter /
        (6 * EI * L * L * L)
  else 0

/-- `calculateDeflectionAt` (source lines 551-749): normalize units, then sum
the per-load contribution for the beam type.  The source also binds an unused
local `moment = calculateBendingMoment(...)`, dead code with no effect on the
result, omitted here. -/
def calculateDeflectionAt (params : BeamParameters) (position : ℚ) : ℚ :=
  let cp := convertToCalculationUnits params
  let EI := cp.elasticModulus * cp.momentOfInertia
  if cp.beamType = "simply-supported" then
    cp.loads.foldl (fun acc l => acc + ssDeflectionTerm EI cp.length position l) 0
  else if cp.beamType = "cantilever" then
    cp.loads.foldl (fun acc l => acc + cantileverDeflectionTerm EI cp.length position l) 0
  else if cp.beamType = "fixed" then
    cp.loads.foldl (fun acc l => acc + fixedDeflectionTerm EI cp.length position l) 0
  else 0

/-- Per-load simply-supported slope contribution (source lines 763-866);
out-of-span loads and positions are skipped (`continue`), i.e. contribute 0. -/
def ssSlopeTerm (EI length leftSupport rightSupport span position : ℚ) (l : Load) : ℚ :=
  if l.type = "point-load" then
    match l.position with
    | some pos =>
      if pos < leftSupport ∨ pos > rightSupport then 0
      else
        let a := pos - leftSupport
        let L := span
        let x := position - leftSupport
        if x < 0 ∨ x > L then 0
        else if x ≤ a then
          l.magnitude * a * (L - a) * (L - a - x) / (6 * EI * L)
        else
          l.magnitude * a * a * (x - a) / (6 * EI * L)
    | none => 0
  else if l.type = "uniform-load" then
    let startPos := jsOr l.startPosition 0
    let endPos := jsOr l.endPosition length
    let overlapStart := max startPos leftSupport
    let overlapEnd := min endPos rightSupport
    if overlapStart ≥ overlapEnd then 0
    else
      let w := l.magnitude
      let L := span
      let x := position - leftSupport
      if x < 0 ∨ x > L then 0
      else if overlapStart = leftSupport ∧ overlapEnd = rightSupport then
        w * (L * L * L - 4 * L * x * x + 2 * x * x * x) / (24 * EI * L)
      else
        let loadLength := overlapEnd - overlapStart
        let midPoint := (overlapStart + overlapEnd) / 2 - leftSupport
        let totalLoad := w * loadLength
        if x ≤ overlapStart - leftSupport then
          totalLoad * (x * (L - midPoint) - x * x / 2) / (EI * L)
        else if x ≤ overlapEnd - leftSupport then
          let x1 := x - (overlapStart - leftSupport)
          w * (x * (L - x) - x1 * x1 / 2) / (EI * L)
        else
          totalLoad * (L - x) * (midPoint / L) / EI
  else if l.type = "triangular-load" then
    let startPos := jsOr l.startPosition 0
    let endPos := jsOr l.endPosition length
    let overlapStart := max startPos leftSupport
    let overlapEnd := min endPos rightSupport
    if overlapStart ≥ overlapEnd then 0
    else
      let L := span
      let x := position - leftSupport
      if x < 0 ∨ x > L then 0
      else
        let a := overlapStart - leftSupport
        let b := overlapEnd - leftSupport
        let c := b - a
        let w := l.magnitude
        if x ≤ a then
          let totalLoad := w * c / 2
          let loadCenter := b - c / 3
          totalLoad * (L - loadCenter) * x / (EI * L)
        else if x ≤ b then
          let x1 := x - a
          let loadIntensityAtX := w * x1 / c
          let remainingLength := b - x
          let remainingLoadArea := loadIntensityAtX * remainingLength / 2
          let remainingLoadCenter := x + remainingLength * 2 / 3
          remainingLoadArea * (L - remainingLoadCenter) * x / (EI * L)
        else
          let totalLoad := w * c / 2
          let loadCenter := b - c / 3
          totalLoad * loadCenter * (L - x) / (EI * L)
  else 0

/-- Per-load cantilever slope contribution (source lines 868-926). -/
def cantileverSlopeTerm (EI length position : ℚ) (l : Load) : ℚ :=
  if l.type = "point-load" then
    match l.position with
    | some a =>
      if position ≤ a then
        l.magnitude * position * (2 * a - position) / (2 * EI)
      else
        l.magnitude * a * a / (2 * EI)
    | none => 0
  else if l.type = "uniform-load" then
    let startPos := jsOr l.startPosition 0
    let endPos := jsOr l.endPosition length
    let w := l.magnitude
    if endPos - startPos ≥ length then
      w * position * (2 * length - position) / (4 * EI)
    else
      let loadLength := endPos - startPos
      if position ≤ startPos then
        w * loadLength * (2 * (endPos + startPos) / 2 - position) / (2 * EI)
      else if position ≤ endPos then
        w * (endPos - position) * (endPos - position) / (4 * EI)
      else 0
  else if l.type = "triangular-load" then
    let startPos := jsOr l.startPosition 0
    let endPos := jsOr l.endPosition length
    let w := l.magnitude
    let loadWidth := endPos - startPos
    if position ≤ startPos then
      let totalLoad := w * loadWidth / 2
      let loadCenter := endPos - loadWidth / 3
      totalLoad * (2 * loadCenter - position) / (2 * EI)
    else if position ≤ endPos then
      let x1 := position - startPos
      let heightAtPosition := w * x1 / loadWidth
      let remainingWidth := endPos - position
      heightAtPosition * remainingWidth * remainingWidth / (6 * EI)
    else 0
  else 0

/-- Per-load fixed-fixed slope contribution (source lines 928-977). -/
def fixedSlopeTerm (EI length position : ℚ) (l : Load) : ℚ :=
  if l.type = "point-load" then
    match l.position with
    | some a =>
      let L := length
      if position ≤ a then
        l.magnitude * a * position * (L - a - position) / (2 * EI * L)
      else
        l.magnitude * a * (L - position) * (position - a) / (2 * EI * L)
    | none => 0
  else if l.type = "uniform-load" then
    let startPos := jsOr l.startPosition 0
    let endPos := jsOr l.endPosition length
    let w := l.magnitude
    let L := length
    if endPos - startPos ≥ length then
      w * position * (L - position) * (L - 2 * position) / (12 * EI)
    else
      let loadLength := endPos - startPos
      let loadCenter := startPos + loadLength / 2
      let totalLoad := w * loadLength
      if position ≤ loadCenter then
        totalLoad * position * (L - loadCenter - position / 3) / (2 * EI * L)
      else
        totalLoad * (L - position) * (position - loadCenter / 3) / (2 * EI * L)
  else if l.type = "triangular-load" then
    let startPos := jsOr l.startPosition 0
    let endPos := jsOr l.endPosition length
    let w := l.magnitude
    let L := length
    let loadWidth := endPos - startPos
    let totalLoad := w * loadWidth / 2
    let loadCenter := endPos - loadWidth / 3
    if position ≤ loadCenter then
      totalLoad * position * (L - loadCenter - position / 3) / (2 * EI * L)
    else
      totalLoad * (L - position) * (position - loadCenter / 3) / (2 * EI * L)
  else 0

/-- `calculateSlopeAt` (source lines 751-982).  Support positions are read
from the raw `params` as in the source; normalized and raw lengths coincide. -/
def calculateSlopeAt (params : BeamParameters) (position : ℚ) : ℚ :=
  let cp := convertToCalculationUnits params
  let EI := cp.elasticModulus * cp.momentOfInertia
  let leftSupport := params.leftSupportPosition.getD 0
  let rightSupport := params.rightSupportPosition.getD cp.length
  let span := rightSupport - leftSupport
  if cp.beamType = "simply-supported" then
    cp.loads.foldl
      (fun acc l => acc + ssSlopeTerm EI cp.length leftSupport rightSupport span position l) 0
  else if cp.beamType = "cantilever" then
    cp.loads.foldl (fun acc l => acc + cantileverSlopeTerm EI cp.length position l) 0
  else if cp.beamType = "fixed" then
    cp.loads.foldl (fun acc l => acc + fixedSlopeTerm EI cp.length position l) 0
  else 0

/-- `calculateDeflectionPoints` (source lines 518-534): 101 samples of the
deflection over `[0, length]`, converted to millimetres. -/
def calculateDeflectionPoints (params : BeamParameters) : List ResultPoint :=
  (List.range 101).map fun (i : ℕ) =>
    let x := 0 + ((i : ℚ) / 100) * (params.length - 0)
    { x := x, y := calculateDeflectionAt params x * 1000 }

/-- `calculateSlopePoints` (source lines 536-549): 101 samples of the slope
over `[0, length]`, converted to degrees.  `degPerRad` stands for the source's
`180 / Math.PI`, kept abstract because it is irrational. -/
def calculateSlopePoints (degPerRad : ℚ) (params : BeamParameters) : List ResultPoint :=
  (List.range 101).map fun (i : ℕ) =>
    let x := ((i : ℚ) / 100) * params.length
    { x := x, y := calculateSlopeAt params x * degPerRad }

/-- The max-deflection scan in `performCalculations` (source lines 993-1006):
seeded with the midspan sample, then 51 samples at `i*length/50`, keeping the
first sample of strictly greatest absolute value (signed value, position). -/
def deflectionMaxSearch (params : BeamParameters) : ℚ × ℚ :=
  (List.range 51).foldl
    (fun acc (i : ℕ) =>
      let pos := ((i : ℚ) / 50) * params.length
      let d := calculateDeflectionAt params pos
      if |d| > |acc.1| then (d, pos) else acc)
    (calculateDeflectionAt params (params.length / 2), params.length / 2)

/-- The slope-scan seed in `performCalculations` (source lines 1013-1020):
`maxSlope` starts as the largest of the absolute end/midspan slopes, while the
seed position only distinguishes the two ends (the midspan re-check on line
1017 can never fire since `maxSlope` already includes the midspan sample). -/
def slopeSearchSeed (params : BeamParameters) : ℚ × ℚ :=
  let leftEndSlope := calculateSlopeAt params 0
  let rightEndSlope := calculateSlopeAt params params.length
  let midspanSlope := calculateSlopeAt params (params.length / 2)
  let maxSlope := max |leftEndSlope| (max |rightEndSlope| |midspanSlope|)
  let maxSlopePosition := if |leftEndSlope| > |rightEndSlope| then 0 else params.length
  if |midspanSlope| > maxSlope then (|midspanSlope|, params.length / 2)
  else (maxSlope, maxSlopePosition)

/-- The max-slope scan in `performCalculations` (source lines 1022-1031):
51 samples at `i*length/50`, tracking the absolute slope. -/
def slopeMaxSearch (params : BeamParameters) : ℚ × ℚ :=
  (List.range 51).foldl
    (fun acc (i : ℕ) =>
      let pos := ((i : ℚ) / 50) * params.length
      let s := calculateSlopeAt params pos
      if |s| > acc.1 then (|s|, pos) else acc)
    (slopeSearchSeed params)

/-- `performCalculations` (source lines 987-1060), minus the narrative `steps`
field.  Deflections are reported in mm (×1000), slopes in degrees
(×`degPerRad`, the source's `180 / Math.PI`). -/
def performCalculations (degPerRad : ℚ) (params : BeamParameters) : CalculationResults :=
  let leftEndDeflection := calculateDeflectionAt params 0
  let rightEndDeflection := calculateDeflectionAt params params.length
  let midspanDeflection := calculateDeflectionAt params (params.length / 2)
  let dMax := deflectionMaxSearch params
  let leftEndSlope := calculateSlopeAt params 0
  let rightEndSlope := calculateSlopeAt params params.length
  let midspanSlope := calculateSlopeAt params (params.length / 2)
  let sMax := slopeMaxSearch params
  { deflection :=
      { leftEnd := leftEndDeflection * 1000,
        rightEnd := rightEndDeflection * 1000,
        midspan := midspanDeflection * 1000,
        maxValue := dMax.1 * 1000,
        maxPosition := dMax.2 },
    slope :=
      { leftEnd := leftEndSlope * degPerRad,
        rightEnd := rightEndSlope * degPerRad,
        midspan := midspanSlope * degPerRad,
        maxValue := sMax.1 * degPerRad,
        maxPosition := sMax.2 },
    deflectionPoints := calculateDeflectionPoints params,
    slopePoints := calculateSlopePoints degPerRad params }

/-- Effective left support position (default 0). -/
def effLeft (p : BeamParameters) : ℚ := p.leftSupportPosition.getD 0

/-- Effective right support position (default `length`). -/
def effRight (p : BeamParameters) : ℚ := p.rightSupportPosition.getD p.length

/-- Modelled from the claim's words (C1): the resultant of a load after unit
normalization — point: magnitude; uniform: magnitude·(end−start); triangular:
magnitude·(end−start)/2 — all times 1000 (kN → N). -/
def claimResultant (l : Load) : ℚ :=
  if l.type = "point-load" then 1000 * l.magnitude
  else if l.type = "uniform-load" then
    1000 * l.magnitude * (l.endPosition.getD 0 - l.startPosition.getD 0)
  else if l.type = "triangular-load" then
    1000 * l.magnitude * (l.endPosition.getD 0 - l.startPosition.getD 0) / 2
  else 0

/-- Well-formed load lying within the supported span: a point load has a
defined position inside `[effLeft, effRight]`; a distributed load has defined
bounds with `0 ≤ start < end ≤ length` contained in the span. -/
def loadInSpanWF (p : BeamParameters) (l : Load) : Bool :=
  if l.type = "point-load" then
    match l.position with
    | some a => decide (effLeft p ≤ a ∧ a ≤ effRight p)
    | none => false
  else if l.type = "uniform-load" ∨ l.type = "triangular-load" then
    match l.startPosition, l.endPosition with
    | some s, some e =>
      decide (0 ≤ s ∧ s < e ∧ e ≤ p.length ∧ effLeft p ≤ s ∧ e ≤ effRight p)
    | _, _ => false
  else false

/-- A load whose (clipped) extent misses the supported span entirely, in the
code's own terms: a point position strictly outside `[effLeft, effRight]`, or
a distributed overlap `[max(start, left), min(end, right)]` that is empty. -/
def loadOutOfSpan (p : BeamParameters) (l : Load) : Bool :=
  if l.type = "point-load" then
    match l.position with
    | some a => decide (a < effLeft p ∨ a > effRight p)
    | none => false
  else if l.type = "uniform-load" ∨ l.type = "triangular-load" then
    decide (max (jsOr l.startPosition 0) (effLeft p) ≥
      min (jsOr l.endPosition p.length) (effRight p))
  else false

/-- Modelled from the claim's words (C7): evaluate the deflection at the 101
positions `i*length/100` and keep the first sample of greatest absolute value,
returning `(value, position)`. -/
def claimedDeflectionMax101 (p : BeamParameters) : ℚ × ℚ :=
  (List.range 101).foldl
    (fun acc (i : ℕ) =>
      let x := (i : ℚ) * p.length / 100
      let d := calculateDeflectionAt p x
      if |d| > |acc.1| then (d, x) else acc)
    (calculateDeflectionAt p 0, 0)

/-- C2 failing input: fixed-fixed beam, length 2 m, E = 1 MPa, I = 10¹² mm⁴
(so EI = 10⁶ in SI), one 1 kN point load at midspan. -/
def fixedMidspanBeam : BeamParameters :=
  { length := 2, elasticModulus := 1, momentOfInertia := 10 ^ 12, beamType := "fixed",
    loads := [{ id := "l1", type := "point-load", magnitude := 1, position := some 1 }] }

/-- C3 failing input: cantilever, length 2 m, EI = 10⁶ in SI, a 1 kN/m uniform
load over `[1, 2]`. -/
def cantileverPartialUniformBeam : BeamParameters :=
  { length := 2, elasticModulus := 1, momentOfInertia := 10 ^ 12, beamType := "cantilever",
    loads := [{ id := "l1", type := "uniform-load", magnitude := 1,
                startPosition := some 1, endPosition := some 2 }] }

/-- C4 failing input: simply-supported beam, length 2 m, EI = 10⁶ in SI, a
single 1 kN point load at midspan (position 1). -/
def ssMidspanBeam : BeamParameters :=
  { length := 2, elasticModulus := 1, momentOfInertia := 10 ^ 12,
    beamType := "simply-supported",
    loads := [{ id := "l1", type := "point-load", magnitude := 1, position := some 1 }] }

/-- C5 input: simply-supported beam, length 5 m, E = 200000 MPa, I = 4·10⁷ mm⁴,
a single 10 kN point load at midspan (2.5 m). -/
def knownCaseBeam : BeamParameters :=
  { length := 5, elasticModulus := 200000, momentOfInertia := 4 * 10 ^ 7,
    beamType := "simply-supported",
    loads := [{ id := "l1", type := "point-load", magnitude := 10, position := some (5 / 2) }] }

/-- C6 counterexample load: a 10 kN point load at 0.5 m. -/
def outOfSpanPointLoad : Load :=
  { id := "l1", type := "point-load", magnitude := 10, position := some (1 / 2) }

/-- C6 counterexample input: cantilever of length 5 m fixed at 1 m, with a
10 kN point load at 0.5 m — entirely left of the fixed end. -/
def cantileverOutOfSpanBeam : BeamParameters :=
  { length := 5, elasticModulus := 1, momentOfInertia := 10 ^ 12, beamType := "cantilever",
    leftSupportPosition := some 1,
    loads := [outOfSpanPointLoad] }

/-- C7 counterexample input: simply-supported beam, length 1 m, EI = 10⁶ in SI,
a single 6 kN point load at 0.99 m; `|deflection|` grows strictly towards the
load, so the sampled maximum sits at 0.98 m on the code's 1/50 grid but at
0.99 m on the claimed 1/100 grid. -/
def edgeLoadBeam : BeamParameters :=
  { length := 1, elasticModulus := 1, momentOfInertia := 10 ^ 12,
    beamType := "simply-supported",
    loads := [{ id := "l1", type := "point-load", magnitude := 6, position := some (99 / 100) }] }

/-- C1 witness input: simply-supported 10 m beam with one load of each type,
all inside the default span. -/
def equilibriumWitnessBeam : BeamParameters :=
  { length := 10, elasticModulus := 1, momentOfInertia := 1,
    beamType := "simply-supported",
    loads :=
      [{ id := "p1", type := "point-load", magnitude := 2, position := some 3 },
       { id := "u1", type := "uniform-load", magnitude := 1,
         startPosition := some 1, endPosition := some 4 },
       { id := "t1", type := "triangular-load", magnitude := 3,
         startPosition := some 2, endPosition := some 8 }] }

/-- C6 witness load: a 10 kN point load at −1 m, left of the span. -/
def negativePositionLoad : Load :=
  { id := "l1", type := "point-load", magnitude := 10, position := some (-1) }

/-- C6 witness input: simply-supported 5 m beam with a point load at −1. -/
def ssOutOfSpanBeam : BeamParameters :=
  { length := 5, elasticModulus := 1, momentOfInertia := 1,
    beamType := "simply-supported",
    loads := [negativePositionLoad] }

/-- C9 witness load: an ordinary in-span point load. -/
def unknownCaseLoad : Load :=
  { id := "l1", type := "point-load", magnitude := 10, position := some 2 }

/-- C9 witness input: a beam whose `beamType` tag is not one of the three
supported values. -/
def unknownTypeBeam : BeamParameters :=
  { length := 5, elasticModulus := 1, momentOfInertia := 1, beamType := "arch",
    loads := [unknownCaseLoad] }


lemma jsOr_some_zero (s : ℚ) : jsOr (some s) 0 = s := by
  by_cases h : s = 0 <;> simp [jsOr, h]

lemma jsOr_some_of_ne (e d : ℚ) (h : e ≠ 0) : jsOr (some e) d = e := by
  simp [jsOr, h]

/-- The running state of the abs-max scans: starting from a sampled pair, the
fold keeps a sampled pair whose absolute value dominates every sample seen. -/
lemma foldl_absmax_spec (g q : ℕ → ℚ) (n : ℕ) :
    ∀ (a : ℚ × ℚ) (i0 : ℕ), a = (g i0, q i0) →
    ∃ i, (List.range n).foldl
        (fun acc j => if |g j| > |acc.1| then (g j, q j) else acc) a = (g i, q i) ∧
      (i = i0 ∨ i < n) ∧ |g i0| ≤ |g i| ∧ ∀ j, j < n → |g j| ≤ |g i| := by
  induction n with
  | zero =>
    intro a i0 h
    exact ⟨i0, by simpa using h, Or.inl rfl, le_rfl, fun j hj => absurd hj (Nat.not_lt_zero j)⟩
  | succ n ih =>
    intro a i0 h
    obtain ⟨i, hf, hi, h0, hall⟩ := ih a i0 h
    rw [List.range_succ, List.foldl_append, hf]
    simp only [List.foldl_cons, List.foldl_nil]
    by_cases hc : |g n| > |g i|
    · refine ⟨n, ?_, Or.inr (Nat.lt_succ_self n), le_trans h0 (le_of_lt hc), ?_⟩
      · rw [if_pos hc]
      · intro j hj
        rcases Nat.lt_succ_iff_lt_or_eq.mp hj with hj' | rfl
        · exact le_trans (hall j hj') (le_of_lt hc)
        · exact le_rfl
    · refine ⟨i, ?_, ?_, h0, ?_⟩
      · rw [if_neg hc]
      · rcases hi with hi | hi
        · exact Or.inl hi
        · exact Or.inr (Nat.lt_succ_of_lt hi)
      · intro j hj
        rcases Nat.lt_succ_iff_lt_or_eq.mp hj with hj' | rfl
        · exact hall j hj'
        · exact not_lt.mp hc

/-- Variant for the slope scan, which stores the absolute value itself and
whose seed constrains only the first component. -/
lemma foldl_absmax_fst_spec (s q : ℕ → ℚ) (n : ℕ) :
    ∀ (a : ℚ × ℚ) (i0 : ℕ), a.1 = |s i0| →
    ∃ i, ((List.range n).foldl
        (fun acc j => if |s j| > acc.1 then (|s j|, q j) else acc) a).1 = |s i| ∧
      (i = i0 ∨ i < n) ∧ |s i0| ≤ |s i| ∧ ∀ j, j < n → |s j| ≤ |s i| := by
  induction n with
  | zero =>
    intro a i0 h
    exact ⟨i0, by simpa using h, Or.inl rfl, le_rfl, fun j hj => absurd hj (Nat.not_lt_zero j)⟩
  | succ n ih =>
    intro a i0 h
    obtain ⟨i, hf, hi, h0, hall⟩ := ih a i0 h
    rw [List.range_succ, List.foldl_append]
    simp only [List.foldl_cons, List.foldl_nil]
    by_cases hc : |s n| >
        ((List.range n).foldl (fun acc j => if |s j| > acc.1 then (|s j|, q j) else acc) a).1
    · refine ⟨n, ?_, Or.inr (Nat.lt_succ_self n), ?_, ?_⟩
      · rw [if_pos hc]
      · rw [hf] at hc
        exact le_trans h0 (le_of_lt hc)
      · intro j hj
        rw [hf] at hc
        rcases Nat.lt_succ_iff_lt_or_eq.mp hj with hj' | rfl
        · exact le_trans (hall j hj') (le_of_lt hc)
        · exact le_rfl
    · refine ⟨i, ?_, ?_, h0, ?_⟩
      · rw [if_neg hc]
        exact hf
      · rcases hi with hi | hi
        · exact Or.inl hi
        · exact Or.inr (Nat.lt_succ_of_lt hi)
      · intro j hj
        rw [hf] at hc
        rcases Nat.lt_succ_iff_lt_or_eq.mp hj with hj' | rfl
        · exact hall j hj'
        · exact not_lt.mp hc

lemma deflectionMaxSearch_eq (p : BeamParameters) :
    deflectionMaxSearch p =
      (List.range 51).foldl
        (fun acc (j : ℕ) =>
          if |calculateDeflectionAt p (((j : ℚ) / 50) * p.length)| > |acc.1| then
            (calculateDeflectionAt p (((j : ℚ) / 50) * p.length), ((j : ℚ) / 50) * p.length)
          else acc)
        (calculateDeflectionAt p (p.length / 2), p.length / 2) := rfl

lemma slopeMaxSearch_eq (p : BeamParameters) :
    slopeMaxSearch p =
      (List.range 51).foldl
        (fun acc (j : ℕ) =>
          if |calculateSlopeAt p (((j : ℚ) / 50) * p.length)| > acc.1 then
            (|calculateSlopeAt p (((j : ℚ) / 50) * p.length)|, ((j : ℚ) / 50) * p.length)
          else acc)
        (slopeSearchSeed p) := rfl

lemma claimedDeflectionMax101_eq (p : BeamParameters) :
    claimedDeflectionMax101 p =
      (List.range 101).foldl
        (fun acc (j : ℕ) =>
          if |calculateDeflectionAt p ((j : ℚ) * p.length / 100)| > |acc.1| then
            (calculateDeflectionAt p ((j : ℚ) * p.length / 100), (j : ℚ) * p.length / 100)
          else acc)
        (calculateDeflectionAt p 0, 0) := rfl

/-- C10: `convertToCalculationUnits` scales only the elastic modulus (×10⁶),
the moment of inertia (×10⁻¹²) and each load's magnitude (×1000); the length,
beam type, support positions and every other load field are returned
unchanged (the embedding is over immutable values, so the input itself is
never mutated). -/
theorem convertUnits_frame (p : BeamParameters) :
    (convertToCalculationUnits p).length = p.length ∧
    (convertToCalculationUnits p).beamType = p.beamType ∧
    (convertToCalculationUnits p).leftSupportPosition = p.leftSupportPosition ∧
    (convertToCalculationUnits p).rightSupportPosition = p.rightSupportPosition ∧
    (convertToCalculationUnits p).elasticModulus = p.elasticModulus * 1000000 ∧
    (convertToCalculationUnits p).momentOfInertia = p.momentOfInertia * (1 / 10 ^ 12) ∧
    (convertToCalculationUnits p).loads = p.loads.map fun l =>
      { id := l.id, type := l.type, magnitude := l.magnitude * 1000,
        position := l.position, startPosition := l.startPosition,
        endPosition := l.endPosition } :=
  ⟨rfl, rfl, rfl, rfl, rfl, rfl, rfl⟩

/-- C2 (code bug): on the fixed-fixed beam of length 2 with a midspan point
load, `calculateDeflectionAt` at the right support `x = length` returns
7/6000 m, not the zero required by the fixed-end boundary condition. -/
theorem fixed_beam_right_end_deflection_nonzero :
    calculateDeflectionAt fixedMidspanBeam 2 = 7 / 6000 ∧
    calculateDeflectionAt fixedMidspanBeam 2 ≠ 0 := by
  constructor <;>
    norm_num +decide [calculateDeflectionAt, convertToCalculationUnits, fixedMidspanBeam,
      fixedDeflectionTerm, jsOr]

/-- C3 (code bug): on the cantilever of length 2 with a uniform load over
`[1, 2]`, `calculateSlopeAt` at the fixed end `x = 0` returns 3/2000 rad, not
the zero required by the fixed-end boundary condition (the partial-uniform
slope branch drops the factor `position`). -/
theorem cantilever_fixed_end_slope_nonzero :
    calculateSlopeAt cantileverPartialUniformBeam 0 = 3 / 2000 ∧
    calculateSlopeAt cantileverPartialUniformBeam 0 ≠ 0 := by
  constructor <;>
    norm_num +decide [calculateSlopeAt, convertToCalculationUnits,
      cantileverPartialUniformBeam, cantileverSlopeTerm, jsOr]

/-- C4 (code bug): on the simply-supported beam of length 2 with a single
midspan point load, the deflection at x = 1/2 (11/96000 m) differs from the
deflection at L − x = 3/2 (9/96000 m): the `x > a` deflection branch breaks
the symmetry the spec asserts. -/
theorem ss_midspan_deflection_asymmetric :
    calculateDeflectionAt ssMidspanBeam (1 / 2) ≠
      calculateDeflectionAt ssMidspanBeam (2 - 1 / 2) := by
  norm_num +decide [calculateDeflectionAt, convertToCalculationUnits, ssMidspanBeam,
    ssDeflectionTerm, jsOr]

/-- C6 counterexample: a point load entirely left of a cantilever's fixed end
does not intersect the supported span, yet `calculateReactions` returns its
full magnitude 10000 N as R1 (with moment M1), not a zero contribution. -/
theorem cantilever_out_of_span_reacts :
    loadOutOfSpan cantileverOutOfSpanBeam outOfSpanPointLoad = true ∧
    (calculateReactions cantileverOutOfSpanBeam outOfSpanPointLoad).R1 = 10000 ∧
    (calculateReactions cantileverOutOfSpanBeam outOfSpanPointLoad).R1 ≠ 0 := by
  refine ⟨?_, ?_, ?_⟩ <;>
    norm_num +decide [loadOutOfSpan, calculateReactions, cantileverReactions,
      cantileverOutOfSpanBeam, outOfSpanPointLoad, effLeft, effRight]

/-- C9: `calculateReactions` is total over its tag space — an unrecognized
`beamType`, an unrecognized `load.type`, or a point load with no position all
fall through to the default `{ R1 := 0, R2 := 0 }`. -/
theorem calculateReactions_tag_default (p : BeamParameters) (l : Load)
    (h : (p.beamType ≠ "simply-supported" ∧ p.beamType ≠ "cantilever" ∧
            p.beamType ≠ "fixed") ∨
         (l.type ≠ "point-load" ∧ l.type ≠ "uniform-load" ∧ l.type ≠ "triangular-load") ∨
         (l.type = "point-load" ∧ l.position = none)) :
    calculateReactions p l = { R1 := 0, R2 := 0 } := by
  rcases h with ⟨h1, h2, h3⟩ | ⟨h1, h2, h3⟩ | ⟨h1, h2⟩
  · simp [calculateReactions, h1, h2, h3]
  · simp [calculateReactions, ssReactions, cantileverReactions, fixedReactions, h1, h2, h3]
  · simp [calculateReactions, ssReactions, cantileverReactions, fixedReactions, h1, h2]

/-- C9 witness: a beam tagged `"arch"` gets the default zero reactions. -/
theorem calculateReactions_tag_default_witness :
    (unknownTypeBeam.beamType ≠ "simply-supported" ∧
      unknownTypeBeam.beamType ≠ "cantilever" ∧ unknownTypeBeam.beamType ≠ "fixed") ∧
    calculateReactions unknownTypeBeam unknownCaseLoad = { R1 := 0, R2 := 0 } :=
  ⟨by decide, calculateReactions_tag_default unknownTypeBeam unknownCaseLoad
    (Or.inl (by decide))⟩

lemma known_deflection_closed (x : ℚ) :
    calculateDeflectionAt knownCaseBeam x =
      if x ≤ 5 / 2 then x * (75 / 4 - x ^ 2) / 9600 else x ^ 2 * (5 - x) / 24000 := by
  by_cases hx : x ≤ 5 / 2
  · rw [if_pos hx]
    norm_num +decide [calculateDeflectionAt, convertToCalculationUnits, knownCaseBeam,
      ssDeflectionTerm, hx]
    ring
  · rw [if_neg hx]
    norm_num +decide [calculateDeflectionAt, convertToCalculationUnits, knownCaseBeam,
      ssDeflectionTerm, hx]
    ring

lemma edge_deflection_closed (x : ℚ) :
    calculateDeflectionAt edgeLoadBeam x =
      if x ≤ 99 / 100 then 99 * x * (199 / 10000 - x ^ 2) / 100000
      else x * (1 - x) * (x - 49 / 50) / 1000 := by
  by_cases hx : x ≤ 99 / 100
  · rw [if_pos hx]
    norm_num +decide [calculateDeflectionAt, convertToCalculationUnits, edgeLoadBeam,
      ssDeflectionTerm, hx]
    ring
  · rw [if_neg hx]
    norm_num +decide [calculateDeflectionAt, convertToCalculationUnits, edgeLoadBeam,
      ssDeflectionTerm, hx]
    ring

lemma known_deflection_bound (x : ℚ) (h0 : 0 ≤ x) (h5 : x ≤ 5) :
    |calculateDeflectionAt knownCaseBeam x| ≤ 5 / 1536 ∧
      (x ≠ 5 / 2 → |calculateDeflectionAt knownCaseBeam x| < 5 / 1536) := by
  rw [known_deflection_closed]
  by_cases hx : x ≤ 5 / 2
  · rw [if_pos hx]
    have hsq : x ^ 2 ≤ 25 / 4 := by nlinarith
    have hnn : 0 ≤ x * (75 / 4 - x ^ 2) / 9600 := by
      apply div_nonneg _ (by norm_num)
      apply mul_nonneg h0
      nlinarith
    rw [abs_of_nonneg hnn]
    constructor
    · nlinarith [mul_nonneg (sq_nonneg (x - 5 / 2)) (by linarith : (0 : ℚ) ≤ x + 5)]
    · intro hne
      have hlt : x < 5 / 2 := lt_of_le_of_ne hx hne
      have hne2 : (x - 5 / 2) ^ 2 ≠ 0 := pow_ne_zero 2 (sub_ne_zero.mpr hne)
      have hpos : 0 < (x - 5 / 2) ^ 2 * (x + 5) :=
        mul_pos (lt_of_le_of_ne (sq_nonneg _) (Ne.symm hne2)) (by linarith)
      nlinarith [hpos]
  · rw [if_neg hx]
    push_neg at hx
    have hnn : 0 ≤ x ^ 2 * (5 - x) / 24000 := by
      apply div_nonneg _ (by norm_num)
      apply mul_nonneg (sq_nonneg x)
      linarith
    rw [abs_of_nonneg hnn]
    have hsq : x ^ 2 ≤ 25 := by nlinarith
    have hb : x ^ 2 * (5 - x) ≤ 25 * (5 - x) := by nlinarith
    constructor
    · nlinarith
    · intro _
      nlinarith

lemma known_deflection_search : deflectionMaxSearch knownCaseBeam = (5 / 1536, 5 / 2) := by
  have hL : knownCaseBeam.length = 5 := rfl
  have hseed : ((calculateDeflectionAt knownCaseBeam (knownCaseBeam.length / 2),
        knownCaseBeam.length / 2) : ℚ × ℚ) =
      (calculateDeflectionAt knownCaseBeam (((25 : ℕ) : ℚ) / 50 * knownCaseBeam.length),
        ((25 : ℕ) : ℚ) / 50 * knownCaseBeam.length) := by
    have h : ((25 : ℕ) : ℚ) / 50 * knownCaseBeam.length = knownCaseBeam.length / 2 := by
      push_cast
      ring
    rw [h]
  obtain ⟨i, hf, hi, h25, hall⟩ := foldl_absmax_spec
      (fun j => calculateDeflectionAt knownCaseBeam (((j : ℚ) / 50) * knownCaseBeam.length))
      (fun j => ((j : ℚ) / 50) * knownCaseBeam.length) 51
      (calculateDeflectionAt knownCaseBeam (knownCaseBeam.length / 2),
        knownCaseBeam.length / 2) 25 hseed
  have hDS : deflectionMaxSearch knownCaseBeam =
      (calculateDeflectionAt knownCaseBeam (((i : ℚ) / 50) * knownCaseBeam.length),
        ((i : ℚ) / 50) * knownCaseBeam.length) := (deflectionMaxSearch_eq _).trans hf
  have hle50 : i ≤ 50 := by
    rcases hi with rfl | hi
    · norm_num
    · omega
  have hcast : ((i : ℚ)) ≤ 50 := by exact_mod_cast hle50
  have hcast0 : (0 : ℚ) ≤ (i : ℚ) := by positivity
  have hx0 : 0 ≤ ((i : ℚ) / 50) * knownCaseBeam.length := by
    rw [hL]
    positivity
  have hx5 : ((i : ℚ) / 50) * knownCaseBeam.length ≤ 5 := by
    rw [hL]
    nlinarith
  have h25v : |calculateDeflectionAt knownCaseBeam
      (((25 : ℕ) : ℚ) / 50 * knownCaseBeam.length)| = 5 / 1536 := by
    have h : ((25 : ℕ) : ℚ) / 50 * knownCaseBeam.length = 5 / 2 := by
      rw [hL]
      push_cast
      ring
    rw [h, known_deflection_closed]
    norm_num
  have hgb := known_deflection_bound (((i : ℚ) / 50) * knownCaseBeam.length) hx0 hx5
  have heq : |calculateDeflectionAt knownCaseBeam (((i : ℚ) / 50) * knownCaseBeam.length)| =
      5 / 1536 := by
    refine le_antisymm hgb.1 ?_
    rw [← h25v]
    exact h25
  have hxeq : ((i : ℚ) / 50) * knownCaseBeam.length = 5 / 2 := by
    by_contra hne
    exact absurd heq (ne_of_lt (hgb.2 hne))
  have hgv : calculateDeflectionAt knownCaseBeam (((i : ℚ) / 50) * knownCaseBeam.length) =
      5 / 1536 := by
    rw [hxeq, known_deflection_closed]
    norm_num
  rw [hDS, hgv, hxeq]

lemma performCalculations_max_fields (c : ℚ) (p : BeamParameters) :
    (performCalculations c p).deflection.maxValue = (deflectionMaxSearch p).1 * 1000 ∧
    (performCalculations c p).deflection.maxPosition = (deflectionMaxSearch p).2 ∧
    (performCalculations c p).slope.maxValue = (slopeMaxSearch p).1 * c ∧
    (performCalculations c p).slope.maxPosition = (slopeMaxSearch p).2 := by
  refine ⟨?_, ?_, ?_, ?_⟩ <;>
    · unfold performCalculations
      simp only []

theorem known_case_reactions_and_max_deflection (degPerRad : ℚ) :
    (calculateTotalReactions knownCaseBeam).R1 = 5000 ∧
    (calculateTotalReactions knownCaseBeam).R2 = 5000 ∧
    (performCalculations degPerRad knownCaseBeam).deflection.maxPosition = 5 / 2 ∧
    (performCalculations degPerRad knownCaseBeam).deflection.maxValue =
      10000 * 5 ^ 3 / (48 * (200000 * 1000000) * (4 * 10 ^ 7 / 10 ^ 12)) * 1000 := by
  have hTR : calculateTotalReactions knownCaseBeam =
      { R1 := 5000, R2 := 5000, M1 := some 0, M2 := some 0 } := by
    have h1 : calculateReactions knownCaseBeam
        { id := "l1", type := "point-load", magnitude := 10, position := some (5 / 2) } =
        { R1 := 5000, R2 := 5000 } := by
      norm_num +decide [calculateReactions, ssReactions, knownCaseBeam]
    simp only [calculateTotalReactions]
    rw [show knownCaseBeam.loads =
      [{ id := "l1", type := "point-load", magnitude := 10, position := some (5 / 2) }] from rfl]
    simp only [List.foldl_cons, List.foldl_nil, h1]
    norm_num
  refine ⟨?_, ?_, ?_, ?_⟩
  · rw [hTR]
  · rw [hTR]
  · rw [(performCalculations_max_fields degPerRad knownCaseBeam).2.1, known_deflection_search]
  · rw [(performCalculations_max_fields degPerRad knownCaseBeam).1, known_deflection_search]
    norm_num

lemma edge_bound_coarse (x : ℚ) (h0 : 0 ≤ x) (hx : x ≤ 24 / 25) :
    |calculateDeflectionAt edgeLoadBeam x| < 9124731 / 10 ^ 10 := by
  rw [edge_deflection_closed, if_pos (by linarith : x ≤ 99 / 100)]
  rw [abs_lt]
  have hx2 : x ^ 2 ≤ (24 / 25) ^ 2 := by nlinarith
  have hx3 : x * x ^ 2 ≤ x * (24 / 25) ^ 2 := mul_le_mul_of_nonneg_left hx2 h0
  constructor
  · nlinarith [mul_nonneg (mul_nonneg h0 h0) h0]
  · nlinarith [mul_nonneg (mul_nonneg h0 h0) h0]

lemma edge_bound_fine (x : ℚ) (h0 : 0 ≤ x) (hx : x ≤ 49 / 50) :
    |calculateDeflectionAt edgeLoadBeam x| < 47054601 / 50000000000 := by
  rw [edge_deflection_closed, if_pos (by linarith : x ≤ 99 / 100)]
  rw [abs_lt]
  have hx2 : x ^ 2 ≤ (49 / 50) ^ 2 := by nlinarith
  have hx3 : x * x ^ 2 ≤ x * (49 / 50) ^ 2 := mul_le_mul_of_nonneg_left hx2 h0
  constructor
  · nlinarith [mul_nonneg (mul_nonneg h0 h0) h0]
  · nlinarith [mul_nonneg (mul_nonneg h0 h0) h0]

lemma edge_deflection_search_pos : (deflectionMaxSearch edgeLoadBeam).2 = 49 / 50 := by
  have hL : edgeLoadBeam.length = 1 := rfl
  have hseed : ((calculateDeflectionAt edgeLoadBeam (edgeLoadBeam.length / 2),
        edgeLoadBeam.length / 2) : ℚ × ℚ) =
      (calculateDeflectionAt edgeLoadBeam (((25 : ℕ) : ℚ) / 50 * edgeLoadBeam.length),
        ((25 : ℕ) : ℚ) / 50 * edgeLoadBeam.length) := by
    have h : ((25 : ℕ) : ℚ) / 50 * edgeLoadBeam.length = edgeLoadBeam.length / 2 := by
      push_cast
      ring
    rw [h]
  obtain ⟨i, hf, hi, h25, hall⟩ := foldl_absmax_spec
      (fun j => calculateDeflectionAt edgeLoadBeam (((j : ℚ) / 50) * edgeLoadBeam.length))
      (fun j => ((j : ℚ) / 50) * edgeLoadBeam.length) 51
      (calculateDeflectionAt edgeLoadBeam (edgeLoadBeam.length / 2),
        edgeLoadBeam.length / 2) 25 hseed
  have hDS : deflectionMaxSearch edgeLoadBeam =
      (calculateDeflectionAt edgeLoadBeam (((i : ℚ) / 50) * edgeLoadBeam.length),
        ((i : ℚ) / 50) * edgeLoadBeam.length) := (deflectionMaxSearch_eq _).trans hf
  have hle50 : i ≤ 50 := by
    rcases hi with rfl | hi
    · norm_num
    · omega
  have h49v : |calculateDeflectionAt edgeLoadBeam
      (((49 : ℕ) : ℚ) / 50 * edgeLoadBeam.length)| = 9124731 / 10 ^ 10 := by
    have h : ((49 : ℕ) : ℚ) / 50 * edgeLoadBeam.length = 49 / 50 := by
      rw [hL]
      push_cast
      ring
    rw [h, edge_deflection_closed]
    norm_num
  have h49 := hall 49 (by norm_num)
  rw [h49v] at h49
  by_cases hi50 : i = 50
  · exfalso
    rw [hi50] at h49
    have h1 : (((50 : ℕ) : ℚ) / 50) * edgeLoadBeam.length = 1 := by
      rw [hL]
      push_cast
      ring
    rw [h1, edge_deflection_closed] at h49
    norm_num at h49
  · by_cases hi49 : i = 49
    · rw [hDS, hi49, hL]
      push_cast
      ring
    · exfalso
      have hle48 : i ≤ 48 := by omega
      have hcast : ((i : ℚ)) ≤ 48 := by exact_mod_cast hle48
      have hcast0 : (0 : ℚ) ≤ (i : ℚ) := by positivity
      have hb := edge_bound_coarse (((i : ℚ) / 50) * edgeLoadBeam.length)
        (by rw [hL]; positivity) (by rw [hL]; nlinarith)
      linarith

set_option maxRecDepth 4000 in
lemma edge_claimed_search_pos : (claimedDeflectionMax101 edgeLoadBeam).2 = 99 / 100 := by
  have hL : edgeLoadBeam.length = 1 := rfl
  have hseed : ((calculateDeflectionAt edgeLoadBeam 0, 0) : ℚ × ℚ) =
      (calculateDeflectionAt edgeLoadBeam (((0 : ℕ) : ℚ) * edgeLoadBeam.length / 100),
        ((0 : ℕ) : ℚ) * edgeLoadBeam.length / 100) := by
    have h : ((0 : ℕ) : ℚ) * edgeLoadBeam.length / 100 = 0 := by
      push_cast
      ring
    rw [h]
  obtain ⟨i, hf, hi, h00, hall⟩ := foldl_absmax_spec
      (fun j => calculateDeflectionAt edgeLoadBeam ((j : ℚ) * edgeLoadBeam.length / 100))
      (fun j => (j : ℚ) * edgeLoadBeam.length / 100) 101
      (calculateDeflectionAt edgeLoadBeam 0, 0) 0 hseed
  have hDS : claimedDeflectionMax101 edgeLoadBeam =
      (calculateDeflectionAt edgeLoadBeam ((i : ℚ) * edgeLoadBeam.length / 100),
        (i : ℚ) * edgeLoadBeam.length / 100) := (claimedDeflectionMax101_eq _).trans hf
  have hle100 : i ≤ 100 := by
    rcases hi with rfl | hi
    · norm_num
    · omega
  have h99v : |calculateDeflectionAt edgeLoadBeam
      (((99 : ℕ) : ℚ) * edgeLoadBeam.length / 100)| = 47054601 / 50000000000 := by
    have h : ((99 : ℕ) : ℚ) * edgeLoadBeam.length / 100 = 99 / 100 := by
      rw [hL]
      push_cast
      ring
    rw [h, edge_deflection_closed]
    norm_num
  have h99 := hall 99 (by norm_num)
  rw [h99v] at h99
  by_cases hi100 : i = 100
  · exfalso
    rw [hi100] at h99
    have h1 : (((100 : ℕ) : ℚ)) * edgeLoadBeam.length / 100 = 1 := by
      rw [hL]
      push_cast
      ring
    rw [h1, edge_deflection_closed] at h99
    norm_num at h99
  · by_cases hi99 : i = 99
    · rw [hDS, hi99, hL]
      push_cast
      ring
    · exfalso
      have hle98 : i ≤ 98 := by omega
      have hcast : ((i : ℚ)) ≤ 98 := by exact_mod_cast hle98
      have hcast0 : (0 : ℚ) ≤ (i : ℚ) := by positivity
      have hb := edge_bound_fine ((i : ℚ) * edgeLoadBeam.length / 100)
        (by rw [hL]; positivity) (by rw [hL]; nlinarith)
      linarith

/-- C7 counterexample: on `edgeLoadBeam` the position of the reported maximum
deflection (the code's 50-subdivision scan: 49/50) differs from the position
the claimed 100-subdivision scan selects (99/100). -/
theorem sampling_grid_counterexample :
    (performCalculations 1 edgeLoadBeam).deflection.maxPosition ≠
      (claimedDeflectionMax101 edgeLoadBeam).2 := by
  rw [(performCalculations_max_fields 1 edgeLoadBeam).2.1, edge_deflection_search_pos,
    edge_claimed_search_pos]
  norm_num

lemma slopeSearchSeed_fst (p : BeamParameters) :
    ∃ i0 : ℕ, i0 ≤ 50 ∧
      (slopeSearchSeed p).1 = |calculateSlopeAt p (((i0 : ℚ) / 50) * p.length)| := by
  have h0 : ((0 : ℕ) : ℚ) / 50 * p.length = 0 := by
    push_cast
    ring
  have h50 : ((50 : ℕ) : ℚ) / 50 * p.length = p.length := by
    push_cast
    ring
  have h25 : ((25 : ℕ) : ℚ) / 50 * p.length = p.length / 2 := by
    push_cast
    ring
  unfold slopeSearchSeed
  simp only []
  have hnotfire : ¬ (|calculateSlopeAt p (p.length / 2)| >
      max |calculateSlopeAt p 0|
        (max |calculateSlopeAt p p.length| |calculateSlopeAt p (p.length / 2)|)) :=
    not_lt.mpr (le_max_of_le_right (le_max_right _ _))
  rw [if_neg hnotfire]
  rcases max_choice |calculateSlopeAt p 0|
      (max |calculateSlopeAt p p.length| |calculateSlopeAt p (p.length / 2)|) with h | h
  · refine ⟨0, by norm_num, ?_⟩
    rw [h0]
    exact h
  · rcases max_choice |calculateSlopeAt p p.length| |calculateSlopeAt p (p.length / 2)|
        with h' | h'
    · refine ⟨50, by norm_num, ?_⟩
      rw [h50, h, h']
    · refine ⟨25, by norm_num, ?_⟩
      rw [h25, h, h']

/-- C7 amended: the reported maxima come from the 51 samples at
`i*length/50`, `i = 0..50`: the deflection `maxValue`/`maxPosition` are a
sample of greatest absolute value (signed, ×1000 to mm) at its grid position,
and the slope `maxValue` is the greatest absolute slope sample (converted). -/
theorem sampling_max_characterization (degPerRad : ℚ) (p : BeamParameters) :
    (∃ i : ℕ, i ≤ 50 ∧
      (performCalculations degPerRad p).deflection.maxPosition = ((i : ℚ) / 50) * p.length ∧
      (performCalculations degPerRad p).deflection.maxValue =
        calculateDeflectionAt p (((i : ℚ) / 50) * p.length) * 1000 ∧
      ∀ j : ℕ, j ≤ 50 →
        |calculateDeflectionAt p (((j : ℚ) / 50) * p.length)| ≤
          |calculateDeflectionAt p (((i : ℚ) / 50) * p.length)|) ∧
    (∃ i : ℕ, i ≤ 50 ∧
      (performCalculations degPerRad p).slope.maxValue =
        |calculateSlopeAt p (((i : ℚ) / 50) * p.length)| * degPerRad ∧
      ∀ j : ℕ, j ≤ 50 →
        |calculateSlopeAt p (((j : ℚ) / 50) * p.length)| ≤
          |calculateSlopeAt p (((i : ℚ) / 50) * p.length)|) := by
  constructor
  · have hseed : ((calculateDeflectionAt p (p.length / 2), p.length / 2) : ℚ × ℚ) =
        (calculateDeflectionAt p (((25 : ℕ) : ℚ) / 50 * p.length),
          ((25 : ℕ) : ℚ) / 50 * p.length) := by
      have h : ((25 : ℕ) : ℚ) / 50 * p.length = p.length / 2 := by
        push_cast
        ring
      rw [h]
    obtain ⟨i, hf, hi, h25, hall⟩ := foldl_absmax_spec
        (fun j => calculateDeflectionAt p (((j : ℚ) / 50) * p.length))
        (fun j => ((j : ℚ) / 50) * p.length) 51
        (calculateDeflectionAt p (p.length / 2), p.length / 2) 25 hseed
    have hDS : deflectionMaxSearch p =
        (calculateDeflectionAt p (((i : ℚ) / 50) * p.length),
          ((i : ℚ) / 50) * p.length) := (deflectionMaxSearch_eq _).trans hf
    refine ⟨i, ?_, ?_, ?_, ?_⟩
    · rcases hi with rfl | hi
      · norm_num
      · omega
    · rw [(performCalculations_max_fields degPerRad p).2.1, hDS]
    · rw [(performCalculations_max_fields degPerRad p).1, hDS]
    · intro j hj
      exact hall j (by omega)
  · obtain ⟨i0, hi0, hs⟩ := slopeSearchSeed_fst p
    obtain ⟨i, hf, hi, h0, hall⟩ := foldl_absmax_fst_spec
        (fun j => calculateSlopeAt p (((j : ℚ) / 50) * p.length))
        (fun j => ((j : ℚ) / 50) * p.length) 51 (slopeSearchSeed p) i0 hs
    have hDS : (slopeMaxSearch p).1 =
        |calculateSlopeAt p (((i : ℚ) / 50) * p.length)| := by
      rw [slopeMaxSearch_eq]
      exact hf
    refine ⟨i, ?_, ?_, ?_⟩
    · rcases hi with rfl | hi
      · exact hi0
      · omega
    · rw [(performCalculations_max_fields degPerRad p).2.2.1, hDS]
    · intro j hj
      exact hall j (by omega)

/-- C8: both samplers return exactly 101 points at `x_i = i*length/100`,
`i = 0..100`, with deflection y-values `calculateDeflectionAt × 1000` (m → mm)
and slope y-values `calculateSlopeAt × degPerRad` (the source's `180/π`). -/
theorem sample_points_shape (degPerRad : ℚ) (p : BeamParameters) :
    (calculateDeflectionPoints p).length = 101 ∧
    (calculateSlopePoints degPerRad p).length = 101 ∧
    ∀ i : ℕ, i < 101 →
      (calculateDeflectionPoints p)[i]? =
        some { x := (i : ℚ) * p.length / 100,
               y := calculateDeflectionAt p ((i : ℚ) * p.length / 100) * 1000 } ∧
      (calculateSlopePoints degPerRad p)[i]? =
        some { x := (i : ℚ) * p.length / 100,
               y := calculateSlopeAt p ((i : ℚ) * p.length / 100) * degPerRad } := by
  refine ⟨by simp [calculateDeflectionPoints], by simp [calculateSlopePoints], ?_⟩
  intro i hi
  have hx1 : 0 + ((i : ℚ) / 100) * (p.length - 0) = (i : ℚ) * p.length / 100 := by ring
  have hx2 : ((i : ℚ) / 100) * p.length = (i : ℚ) * p.length / 100 := by ring
  constructor
  · have h : (calculateDeflectionPoints p)[i]? =
        some { x := 0 + ((i : ℚ) / 100) * (p.length - 0),
               y := calculateDeflectionAt p (0 + ((i : ℚ) / 100) * (p.length - 0)) * 1000 } := by
      simp only [calculateDeflectionPoints, List.getElem?_map, List.getElem?_range hi]
      rfl
    rw [h, hx1]
  · have h : (calculateSlopePoints degPerRad p)[i]? =
        some { x := ((i : ℚ) / 100) * p.length,
               y := calculateSlopeAt p (((i : ℚ) / 100) * p.length) * degPerRad } := by
      simp only [calculateSlopePoints, List.getElem?_map, List.getElem?_range hi]
      rfl
    rw [h, hx2]

/-- C6 amended: on simply-supported beams, a load whose extent misses the
supported span gets the zero reaction `{ R1 := 0, R2 := 0 }` (no moments). -/
theorem ss_out_of_span_zero_reactions (p : BeamParameters) (l : Load)
    (hbt : p.beamType = "simply-supported") (h : loadOutOfSpan p l = true) :
    calculateReactions p l = { R1 := 0, R2 := 0 } := by
  unfold loadOutOfSpan at h
  simp only [effLeft, effRight] at h
  unfold calculateReactions
  simp only [hbt, if_pos]
  unfold ssReactions
  by_cases ht1 : l.type = "point-load"
  · simp only [ht1, if_pos] at h ⊢
    cases hp : l.position with
    | none => simp [hp]
    | some a =>
      rw [hp] at h
      simp only [decide_eq_true_eq] at h
      simp only [hp]
      rw [if_pos h]
  · by_cases ht2 : l.type = "uniform-load"
    · have h' : jsOr l.startPosition 0 ⊔ p.leftSupportPosition.getD 0 ≥
          jsOr l.endPosition p.length ⊓ p.rightSupportPosition.getD p.length := by
        simpa [ht1, ht2] using h
      simp [ht1, ht2, h']
    · by_cases ht3 : l.type = "triangular-load"
      · have h' : jsOr l.startPosition 0 ⊔ p.leftSupportPosition.getD 0 ≥
            jsOr l.endPosition p.length ⊓ p.rightSupportPosition.getD p.length := by
          simpa [ht1, ht2, ht3] using h
        simp [ht1, ht2, ht3, h']
      · simp [ht1, ht2, ht3] at h

/-- C6 amended witness: a point load at −1 m on a simply-supported 5 m beam is
out of span and yields zero reactions. -/
theorem ss_out_of_span_zero_reactions_witness :
    (ssOutOfSpanBeam.beamType = "simply-supported" ∧
      loadOutOfSpan ssOutOfSpanBeam negativePositionLoad = true) ∧
    calculateReactions ssOutOfSpanBeam negativePositionLoad = { R1 := 0, R2 := 0 } :=
  ⟨⟨rfl, by norm_num [loadOutOfSpan, ssOutOfSpanBeam, negativePositionLoad, effLeft, effRight]⟩,
    ss_out_of_span_zero_reactions ssOutOfSpanBeam negativePositionLoad rfl
      (by norm_num [loadOutOfSpan, ssOutOfSpanBeam, negativePositionLoad, effLeft, effRight])⟩

lemma calculateReactions_ss (p : BeamParameters) (l : Load)
    (hb : p.beamType = "simply-supported") :
    calculateReactions p l =
      ssReactions p.length (p.leftSupportPosition.getD 0)
        (p.rightSupportPosition.getD p.length)
        (p.rightSupportPosition.getD p.length - p.leftSupportPosition.getD 0)
        { l with magnitude := l.magnitude * 1000 } := by
  unfold calculateReactions
  simp [hb]

lemma calculateReactions_cant (p : BeamParameters) (l : Load)
    (hb : p.beamType = "cantilever") :
    calculateReactions p l =
      cantileverReactions p.length (p.leftSupportPosition.getD 0)
        { l with magnitude := l.magnitude * 1000 } := by
  unfold calculateReactions
  simp [hb]

lemma calculateReactions_fixed (p : BeamParameters) (l : Load)
    (hb : p.beamType = "fixed") :
    calculateReactions p l =
      fixedReactions p.length (p.leftSupportPosition.getD 0)
        (p.rightSupportPosition.getD p.length - p.leftSupportPosition.getD 0)
        { l with magnitude := l.magnitude * 1000 } := by
  unfold calculateReactions
  simp [hb]

lemma totalReactions_R1R2_sum (p : BeamParameters) :
    (calculateTotalReactions p).R1 + (calculateTotalReactions p).R2 =
      (p.loads.map fun l =>
        (calculateReactions p l).R1 + (calculateReactions p l).R2).sum := by
  have key : ∀ (ls : List Load) (acc : Reactions),
      (ls.foldl (fun acc load =>
          let r := calculateReactions p load
          { R1 := acc.R1 + r.R1, R2 := acc.R2 + r.R2,
            M1 := some (acc.M1.getD 0 + r.M1.getD 0),
            M2 := some (acc.M2.getD 0 + r.M2.getD 0) }) acc).R1 +
      (ls.foldl (fun acc load =>
          let r := calculateReactions p load
          { R1 := acc.R1 + r.R1, R2 := acc.R2 + r.R2,
            M1 := some (acc.M1.getD 0 + r.M1.getD 0),
            M2 := some (acc.M2.getD 0 + r.M2.getD 0) }) acc).R2 =
        acc.R1 + acc.R2 + (ls.map fun l =>
          (calculateReactions p l).R1 + (calculateReactions p l).R2).sum := by
    intro ls
    induction ls with
    | nil =>
      intro acc
      simp
    | cons hd tl ih =>
      intro acc
      simp only [List.foldl_cons, List.map_cons, List.sum_cons]
      rw [ih]
      simp only []
      ring
  have h := key p.loads { R1 := 0, R2 := 0, M1 := some 0, M2 := some 0 }
  unfold calculateTotalReactions
  simpa using h

lemma totalReactions_R1_sum (p : BeamParameters) :
    (calculateTotalReactions p).R1 =
      (p.loads.map fun l => (calculateReactions p l).R1).sum := by
  have key : ∀ (ls : List Load) (acc : Reactions),
      (ls.foldl (fun acc load =>
          let r := calculateReactions p load
          { R1 := acc.R1 + r.R1, R2 := acc.R2 + r.R2,
            M1 := some (acc.M1.getD 0 + r.M1.getD 0),
            M2 := some (acc.M2.getD 0 + r.M2.getD 0) }) acc).R1 =
        acc.R1 + (ls.map fun l => (calculateReactions p l).R1).sum := by
    intro ls
    induction ls with
    | nil =>
      intro acc
      simp
    | cons hd tl ih =>
      intro acc
      simp only [List.foldl_cons, List.map_cons, List.sum_cons]
      rw [ih]
      simp only []
      ring
  have h := key p.loads { R1 := 0, R2 := 0, M1 := some 0, M2 := some 0 }
  unfold calculateTotalReactions
  simpa using h

lemma map_sum_congr {α : Type} (f g : α → ℚ) :
    ∀ ls : List α, (∀ x ∈ ls, f x = g x) → (ls.map f).sum = (ls.map g).sum := by
  intro ls
  induction ls with
  | nil => intro _; rfl
  | cons hd tl ih =>
    intro h
    simp only [List.map_cons, List.sum_cons]
    rw [h hd (List.mem_cons_self hd tl), ih fun x hx => h x (List.mem_cons_of_mem hd hx)]

lemma ssReactions_point_sum (L left right span : ℚ) (l : Load) (a : ℚ)
    (ht1 : l.type = "point-load") (hp : l.position = some a)
    (hin : ¬(a < left ∨ a > right)) :
    (ssReactions L left right span l).R1 + (ssReactions L left right span l).R2 =
      l.magnitude := by
  unfold ssReactions
  rw [if_pos ht1, hp]
  simp only []
  rw [if_neg hin]
  simp only []
  ring

lemma ssReactions_uniform_sum (L left right span : ℚ) (l : Load) (s e : ℚ)
    (ht1 : l.type ≠ "point-load") (ht : l.type = "uniform-load")
    (hjs : jsOr l.startPosition 0 = s) (hje : jsOr l.endPosition L = e)
    (hmax : s ⊔ left = s) (hmin : e ⊓ right = e) (hse : s < e) :
    (ssReactions L left right span l).R1 + (ssReactions L left right span l).R2 =
      l.magnitude * (e - s) := by
  unfold ssReactions
  rw [if_neg ht1, if_pos ht]
  simp only []
  rw [hjs, hje, hmax, hmin, if_neg (not_le.mpr hse)]
  simp only []
  ring

lemma ssReactions_triangular_sum (L left right span : ℚ) (l : Load) (s e : ℚ)
    (ht1 : l.type ≠ "point-load") (ht2 : l.type ≠ "uniform-load")
    (ht : l.type = "triangular-load")
    (hjs : jsOr l.startPosition 0 = s) (hje : jsOr l.endPosition L = e)
    (hmax : s ⊔ left = s) (hmin : e ⊓ right = e) (hse : s < e) :
    (ssReactions L left right span l).R1 + (ssReactions L left right span l).R2 =
      l.magnitude * (e - s) / 2 := by
  unfold ssReactions
  rw [if_neg ht1, if_neg ht2, if_pos ht]
  simp only []
  rw [hjs, hje, hmax, hmin, if_neg (not_le.mpr hse)]
  simp only []
  ring

lemma cantileverReactions_point (L left : ℚ) (l : Load) (a : ℚ)
    (ht1 : l.type = "point-load") (hp : l.position = some a) :
    (cantileverReactions L left l).R1 = l.magnitude := by
  unfold cantileverReactions
  rw [if_pos ht1, hp]

lemma cantileverReactions_uniform (L left : ℚ) (l : Load) (s e : ℚ)
    (ht1 : l.type ≠ "point-load") (ht : l.type = "uniform-load")
    (hjs : jsOr l.startPosition 0 = s) (hje : jsOr l.endPosition L = e) :
    (cantileverReactions L left l).R1 = l.magnitude * (e - s) := by
  unfold cantileverReactions
  rw [if_neg ht1, if_pos ht]
  simp only []
  rw [hjs, hje]

lemma cantileverReactions_triangular (L left : ℚ) (l : Load) (s e : ℚ)
    (ht1 : l.type ≠ "point-load") (ht2 : l.type ≠ "uniform-load")
    (ht : l.type = "triangular-load")
    (hjs : jsOr l.startPosition 0 = s) (hje : jsOr l.endPosition L = e) :
    (cantileverReactions L left l).R1 = l.magnitude * (e - s) / 2 := by
  unfold cantileverReactions
  rw [if_neg ht1, if_neg ht2, if_pos ht]
  simp only []
  rw [hjs, hje]

lemma cantileverReactions_R2 (L left : ℚ) (l : Load) :
    (cantileverReactions L left l).R2 = 0 := by
  unfold cantileverReactions
  split_ifs
  · cases l.position <;> rfl
  · rfl
  · rfl
  · rfl

lemma fixedReactions_point_sum (L left span : ℚ) (l : Load) (a : ℚ)
    (ht1 : l.type = "point-load") (hp : l.position = some a) :
    (fixedReactions L left span l).R1 + (fixedReactions L left span l).R2 =
      l.magnitude := by
  unfold fixedReactions
  rw [if_pos ht1, hp]
  simp only []
  ring

lemma fixedReactions_uniform_sum (L left span : ℚ) (l : Load) (s e : ℚ)
    (ht1 : l.type ≠ "point-load") (ht : l.type = "uniform-load")
    (hjs : jsOr l.startPosition 0 = s) (hje : jsOr l.endPosition L = e)
    (h0s : 0 ≤ s) (hse : s < e) (heL : e ≤ L) :
    (fixedReactions L left span l).R1 + (fixedReactions L left span l).R2 =
      l.magnitude * (e - s) := by
  unfold fixedReactions
  rw [if_neg ht1, if_pos ht]
  simp only []
  rw [hjs, hje]
  by_cases hfull : e - s ≥ L
  · have hs0 : s = 0 := by linarith
    have heL2 : e = L := by linarith
    rw [if_pos hfull]
    simp only []
    rw [hs0, heL2]
    ring
  · rw [if_neg hfull]
    simp only []
    ring

lemma fixedReactions_triangular_sum (L left span : ℚ) (l : Load) (s e : ℚ)
    (ht1 : l.type ≠ "point-load") (ht2 : l.type ≠ "uniform-load")
    (ht : l.type = "triangular-load")
    (hjs : jsOr l.startPosition 0 = s) (hje : jsOr l.endPosition L = e) :
    (fixedReactions L left span l).R1 + (fixedReactions L left span l).R2 =
      l.magnitude * (e - s) / 2 := by
  unfold fixedReactions
  rw [if_neg ht1, if_neg ht2, if_pos ht]
  simp only []
  rw [hjs, hje]
  ring

lemma reactions_pair_sum (p : BeamParameters) (l : Load)
    (hL : 0 < p.length)
    (hwf : loadInSpanWF p l = true)
    (hbt : p.beamType = "simply-supported" ∨ p.beamType = "cantilever" ∨
      p.beamType = "fixed") :
    (calculateReactions p l).R1 + (calculateReactions p l).R2 = claimResultant l := by
  unfold loadInSpanWF at hwf
  simp only [effLeft, effRight] at hwf
  by_cases ht1 : l.type = "point-load"
  · simp only [ht1, if_pos] at hwf
    cases hp : l.position with
    | none =>
      rw [hp] at hwf
      simp at hwf
    | some a =>
      rw [hp] at hwf
      simp only [decide_eq_true_eq] at hwf
      obtain ⟨ha1, ha2⟩ := hwf
      have hnotout : ¬(a < p.leftSupportPosition.getD 0 ∨
          a > p.rightSupportPosition.getD p.length) := by
        push_neg
        exact ⟨ha1, ha2⟩
      have hres : claimResultant l = 1000 * l.magnitude := by
        unfold claimResultant
        rw [if_pos ht1]
      have hty' : ({ l with magnitude := l.magnitude * 1000 } : Load).type = "point-load" :=
        ht1
      have hp' : ({ l with magnitude := l.magnitude * 1000 } : Load).position = some a := hp
      rcases hbt with hb | hb | hb
      · rw [calculateReactions_ss p l hb,
          ssReactions_point_sum _ _ _ _ _ a hty' hp' hnotout, hres]
        simp only []
        ring
      · rw [calculateReactions_cant p l hb, cantileverReactions_R2,
          cantileverReactions_point _ _ _ a hty' hp', hres]
        simp only []
        ring
      · rw [calculateReactions_fixed p l hb,
          fixedReactions_point_sum _ _ _ _ a hty' hp', hres]
        simp only []
        ring
  · have htd : l.type = "uniform-load" ∨ l.type = "triangular-load" := by
      by_cases ht2 : l.type = "uniform-load"
      · exact Or.inl ht2
      · by_cases ht3 : l.type = "triangular-load"
        · exact Or.inr ht3
        · exfalso
          simp [ht1, ht2, ht3] at hwf
    cases hsp : l.startPosition with
    | none =>
      exfalso
      rcases htd with ht | ht <;> simp [ht1, ht, hsp] at hwf
    | some s =>
      cases hep : l.endPosition with
      | none =>
        exfalso
        rcases htd with ht | ht <;> simp [ht1, ht, hsp, hep] at hwf
      | some e =>
        have hfacts : 0 ≤ s ∧ s < e ∧ e ≤ p.length ∧
            p.leftSupportPosition.getD 0 ≤ s ∧
            e ≤ p.rightSupportPosition.getD p.length := by
          rcases htd with ht | ht <;> simpa [ht1, ht, hsp, hep] using hwf
        obtain ⟨h0s, hse, heL, hls, her⟩ := hfacts
        have hjs : jsOr l.startPosition 0 = s := by
          rw [hsp]
          exact jsOr_some_zero s
        have hje : jsOr l.endPosition p.length = e := by
          rw [hep]
          exact jsOr_some_of_ne e p.length (by linarith)
        have hmax : s ⊔ p.leftSupportPosition.getD 0 = s := max_eq_left hls
        have hmin : e ⊓ p.rightSupportPosition.getD p.length = e := min_eq_left her
        have ht1' : ({ l with magnitude := l.magnitude * 1000 } : Load).type ≠
            "point-load" := ht1
        have hjs' : jsOr ({ l with magnitude := l.magnitude * 1000 } : Load).startPosition
            0 = s := hjs
        have hje' : jsOr ({ l with magnitude := l.magnitude * 1000 } : Load).endPosition
            p.length = e := hje
        rcases htd with ht | ht
        · have ht' : ({ l with magnitude := l.magnitude * 1000 } : Load).type =
              "uniform-load" := ht
          have hres : claimResultant l = 1000 * l.magnitude * (e - s) := by
            unfold claimResultant
            rw [if_neg ht1, if_pos ht, hsp, hep]
            simp only [Option.getD_some]
          rcases hbt with hb | hb | hb
          · rw [calculateReactions_ss p l hb,
              ssReactions_uniform_sum _ _ _ _ _ s e ht1' ht' hjs' hje' hmax hmin hse, hres]
            simp only []
            ring
          · rw [calculateReactions_cant p l hb, cantileverReactions_R2,
              cantileverReactions_uniform _ _ _ s e ht1' ht' hjs' hje', hres]
            simp only []
            ring
          · rw [calculateReactions_fixed p l hb,
              fixedReactions_uniform_sum _ _ _ _ s e ht1' ht' hjs' hje' h0s hse heL, hres]
            simp only []
            ring
        · have ht2 : l.type ≠ "uniform-load" := by
            rw [ht]
            decide
          have ht2' : ({ l with magnitude := l.magnitude * 1000 } : Load).type ≠
              "uniform-load" := ht2
          have ht' : ({ l with magnitude := l.magnitude * 1000 } : Load).type =
              "triangular-load" := ht
          have hres : claimResultant l = 1000 * l.magnitude * (e - s) / 2 := by
            unfold claimResultant
            rw [if_neg ht1, if_neg ht2, if_pos ht, hsp, hep]
            simp only [Option.getD_some]
          rcases hbt with hb | hb | hb
          · rw [calculateReactions_ss p l hb,
              ssReactions_triangular_sum _ _ _ _ _ s e ht1' ht2' ht' hjs' hje' hmax hmin
                hse, hres]
            simp only []
            ring
          · rw [calculateReactions_cant p l hb, cantileverReactions_R2,
              cantileverReactions_triangular _ _ _ s e ht1' ht2' ht' hjs' hje', hres]
            simp only []
            ring
          · rw [calculateReactions_fixed p l hb,
              fixedReactions_triangular_sum _ _ _ _ s e ht1' ht2' ht' hjs' hje', hres]
            simp only []
            ring

/-- C1: for a well-formed beam whose loads all lie within the supported span,
the summed reactions balance the summed (unit-normalized) load resultants:
`R1 + R2` equals the sum for simply-supported and fixed beams, and `R1` alone
equals it for cantilevers. -/
theorem total_reactions_equilibrium (p : BeamParameters)
    (hL : 0 < p.length)
    (hwf : p.loads.all (loadInSpanWF p) = true) :
    ((p.beamType = "simply-supported" ∨ p.beamType = "fixed") →
      (calculateTotalReactions p).R1 + (calculateTotalReactions p).R2 =
        (p.loads.map claimResultant).sum) ∧
    (p.beamType = "cantilever" →
      (calculateTotalReactions p).R1 = (p.loads.map claimResultant).sum) := by
  have hwf' : ∀ l ∈ p.loads, loadInSpanWF p l = true := by
    simpa [List.all_eq_true] using hwf
  constructor
  · intro hb
    rw [totalReactions_R1R2_sum]
    apply map_sum_congr
    intro l hl
    apply reactions_pair_sum p l hL (hwf' l hl)
    rcases hb with hb | hb
    · exact Or.inl hb
    · exact Or.inr (Or.inr hb)
  · intro hb
    rw [totalReactions_R1_sum]
    apply map_sum_congr
    intro l hl
    have hR2 : (calculateReactions p l).R2 = 0 := by
      rw [calculateReactions_cant p l hb]
      exact cantileverReactions_R2 p.length (p.leftSupportPosition.getD 0)
        { l with magnitude := l.magnitude * 1000 }
    have h1 := reactions_pair_sum p l hL (hwf' l hl) (Or.inr (Or.inl hb))
    linarith

/-- C1 witness: a simply-supported 10 m beam carrying a 2 kN point load at
3 m, a 1 kN/m uniform load over [1, 4] and a 3 kN/m triangular load over
[2, 8]: total R1 + R2 equals the summed resultants (14000 N). -/
theorem total_reactions_equilibrium_witness :
    (0 < equilibriumWitnessBeam.length ∧
      equilibriumWitnessBeam.loads.all (loadInSpanWF equilibriumWitnessBeam) = true) ∧
    (calculateTotalReactions equilibriumWitnessBeam).R1 +
        (calculateTotalReactions equilibriumWitnessBeam).R2 =
      (equilibriumWitnessBeam.loads.map claimResultant).sum :=
  ⟨⟨by norm_num [equilibriumWitnessBeam],
      by norm_num +decide [equilibriumWitnessBeam, loadInSpanWF, effLeft, effRight]⟩,
    (total_reactions_equilibrium equilibriumWitnessBeam
      (by norm_num [equilibriumWitnessBeam])
      (by norm_num +decide [equilibriumWitnessBeam, loadInSpanWF, effLeft, effRight])).1
      (Or.inl rfl)⟩
